import Mathlib

/-!
Verification development for the Snap2Fix plumbing-diagnosis wizard (`app.py`).

The Python source is shallowly embedded in Lean:

* the Streamlit session dictionary (`st.session_state`) becomes the
  `SessionState` structure, and the per-case dictionary (`st.session_state.data`)
  becomes `CaseData` with `Option` fields modelling `dict.get` semantics;
* the external OpenAI chat-completion endpoint is an oracle parameter of type
  `String → List Message → Except String String` (api key, message list,
  transport failure or response content) — its behaviour is outside this
  repository;
* the outcome of `json.loads` on the stage-1 response is an oracle of type
  `String → JsonOutcome`, modelled from the spec's inbound-response contract
  (a JSON object with a `questions` key holding a list of strings), since the
  JSON library is external to the repository;
* uploaded files become `UploadedFile` (MIME type plus byte list, each byte a
  `Nat` below 256);
* button handlers become pure functions from state to state, returning the
  number of outbound service invocations they perform and the messages they
  display.
-/

set_option maxRecDepth 100000

namespace Snap2Fix

/-- An uploaded media file: `uploaded_file.type` (MIME string, e.g.
`"image/png"` or `"video/mp4"`) and `uploaded_file.getvalue()` (raw bytes,
modelled as naturals below 256). -/
structure UploadedFile where
  mime : String
  bytes : List Nat
  deriving Repr, DecidableEq

/-! ### Base64 (the Evidence Encoder)

`encode_image` in app.py calls `base64.b64encode(...).decode('utf-8')`.
The standard base64 alphabet, encoder and decoder are modelled below so that
the round-trip law can be stated and proved. -/

/-- The 64-character standard base64 alphabet used by `base64.b64encode`. -/
def b64Alphabet : List Char :=
  "ABCDEFGHIJKLMNOPQRSTUVWXYZabcdefghijklmnopqrstuvwxyz0123456789+/".data

/-- Character for a six-bit group. -/
def sextetChar (n : Nat) : Char :=
  b64Alphabet.getD n 'A'

/-- Index of a character in the base64 alphabet (inverse of `sextetChar`). -/
def charSextet (c : Char) : Nat :=
  b64Alphabet.findIdx (fun x => x == c)

/-- Standard base64 of a byte sequence, exactly as `base64.b64encode` produces
it: three bytes become four alphabet characters; a two-byte tail becomes three
characters and one `=` pad; a one-byte tail becomes two characters and two
`=` pads. -/
def b64EncodeBytes : List Nat → List Char
  | b1 :: b2 :: b3 :: rest =>
    sextetChar ((b1 * 65536 + b2 * 256 + b3) / 262144 % 64) ::
    sextetChar ((b1 * 65536 + b2 * 256 + b3) / 4096 % 64) ::
    sextetChar ((b1 * 65536 + b2 * 256 + b3) / 64 % 64) ::
    sextetChar ((b1 * 65536 + b2 * 256 + b3) % 64) ::
    b64EncodeBytes rest
  | [b1, b2] =>
    [sextetChar ((b1 * 1024 + b2 * 4) / 4096 % 64),
     sextetChar ((b1 * 1024 + b2 * 4) / 64 % 64),
     sextetChar ((b1 * 1024 + b2 * 4) % 64), '=']
  | [b1] =>
    [sextetChar (b1 * 16 / 64 % 64), sextetChar (b1 * 16 % 64), '=', '=']
  | [] => []

/-- Standard base64 decoding of an encoded character sequence (the inverse
direction of the spec's round-trip law): four characters yield three bytes,
`xy==` yields one byte, `xyz=` yields two bytes. -/
def b64DecodeChars : List Char → List Nat
  | c1 :: c2 :: c3 :: c4 :: rest =>
    if c3 = '=' then
      [charSextet c1 * 4 + charSextet c2 / 16]
    else if c4 = '=' then
      [(charSextet c1 * 4096 + charSextet c2 * 64 + charSextet c3) / 1024,
       (charSextet c1 * 4096 + charSextet c2 * 64 + charSextet c3) / 4 % 256]
    else
      (charSextet c1 * 262144 + charSextet c2 * 4096 + charSextet c3 * 64 + charSextet c4) / 65536 ::
      (charSextet c1 * 262144 + charSextet c2 * 4096 + charSextet c3 * 64 + charSextet c4) / 256 % 256 ::
      (charSextet c1 * 262144 + charSextet c2 * 4096 + charSextet c3 * 64 + charSextet c4) % 256 ::
      b64DecodeChars rest
  | _ => []

/-- Base64 text of an uploaded file's bytes, i.e. the value
`base64.b64encode(uploaded_file.getvalue()).decode('utf-8')`. -/
def b64img (f : UploadedFile) : String :=
  String.mk (b64EncodeBytes f.bytes)

/-- `encode_image` from app.py: `None` for an absent upload, otherwise the
base64 text of the file's bytes. -/
def encode_image : Option UploadedFile → Option String
  | none => none
  | some f => some (b64img f)

/-! ### Strings: Python `str.lower()` and the substring operator `in` -/

/-- Python `s.lower()` for the ASCII strings involved (per-character basic
Latin lowering, which is what `str.lower` does on them). -/
def pyLower (s : String) : String :=
  String.mk (s.data.map Char.toLower)

/-- Python `needle in hay` on strings: contiguous-substring test. -/
def strContainsB (hay needle : String) : Bool :=
  decide (needle.data <:+: hay.data)

/-! ### Property Lookup (step 1) -/

/-- One record of the mock property database. -/
structure PropertyRecord where
  year : Int
  sqft : Int
  plans : List String
  deriving Repr, DecidableEq

/-- `MOCK_PROPERTY_DB` (app.py lines 17-21); the list preserves the literal's
insertion order, which is the iteration order of a Python dict. -/
def MOCK_PROPERTY_DB : List (String × PropertyRecord) :=
  [("123 Main St", ⟨1954, 1200, ["Ranch Style (Crawlspace)", "Bungalow (Slab)"]⟩),
   ("456 Oak Ave", ⟨1988, 2400, ["2-Story Colonial", "Split Level"]⟩),
   ("789 Pine Rd", ⟨2015, 3000, ["Modern Open Concept", "Traditional Basement"]⟩)]

/-- The matching loop of the step-1 Auto-Fetch handler (app.py lines 145-149):
walk the keys in order; the first key whose lowercase form is a substring of
the lowercase address wins (`break`). -/
def fetchLoop : List (String × PropertyRecord) → String → Option PropertyRecord
  | [], _ => none
  | kv :: rest, address =>
    if strContainsB (pyLower address) (pyLower kv.1) then some kv.2
    else fetchLoop rest address

/-- Outcome of the step-1 Auto-Fetch handler (app.py lines 151-158): the year
and plans stored into the session, and whether a record was found
(`st.success`) or the defaults were used with a "not found" warning
(`st.warning` — display only, not an error). -/
def step1Fetch (address : String) : Int × List String × Bool :=
  match fetchLoop MOCK_PROPERTY_DB address with
  | some r => (r.year, r.plans, true)
  | none => (1990, ["Standard Layout"], false)

/-! ### The Case Store and prompt composition -/

/-- `st.session_state.data`: a Python dict accessed with `.get`, so every
field is optional and an absent field reads as `None` (never an exception). -/
structure CaseData where
  year : Option Int
  plans : Option (List String)
  plan : Option String
  desc : Option String
  media : Option UploadedFile
  mediaType : Option String
  answers : List String
  deriving Repr, DecidableEq

/-- The empty case dict created at session start (app.py line 12). -/
def emptyCase : CaseData := ⟨none, none, none, none, none, none, []⟩

/-- One entry of an OpenAI content list. -/
inductive ContentPart
  | text (s : String)
  | image_url (url : String)
  deriving Repr, DecidableEq

/-- A message body: either a plain string or a content-part list, matching the
two shapes app.py builds. -/
inductive MsgContent
  | str (s : String)
  | parts (ps : List ContentPart)
  deriving Repr, DecidableEq

/-- A role-tagged chat message. -/
structure Message where
  role : String
  content : MsgContent
  deriving Repr, DecidableEq

/-- Python f-string rendering of `case_data.get(k)` for a text field:
a missing field is `None` and prints as the literal string "None". -/
def renderOptStr : Option String → String
  | none => "None"
  | some s => s

/-- Python f-string rendering of `case_data.get('year')`: a missing field
prints as "None", a present integer in decimal. -/
def renderOptInt : Option Int → String
  | none => "None"
  | some n => toString n

/-- The stage-1 prompt f-string (app.py lines 37-46), with the three
`case_data.get` substitutions. -/
def questionPrompt (cd : CaseData) : String :=
  "\n    You are a Senior Plumber investigating a leak.\n    " ++
  "House Built: " ++ renderOptInt cd.year ++
  "\n    " ++ "Floor Plan: " ++ renderOptStr cd.plan ++
  "\n    " ++ "Description: " ++ renderOptStr cd.desc ++
  "\n    \n    Task: Analyze the image (if provided) and the house stats. \n    Generate 3 specific, simple questions to ask the homeowner to narrow down the root cause.\n    Return ONLY a raw JSON list of strings. Example: [\"Does it hurt when you press?\", \"Is the water hot?\", \"Smell?\"]\n    "

/-- The stage-1 message list (app.py lines 48-58): system persona, then a user
content-part list with the prompt text, extended by an `image_url` part
holding a base64 data URI when an image file was passed (`if image_file:`). -/
def questionMessages (cd : CaseData) (image_file : Option UploadedFile) : List Message :=
  match image_file with
  | none =>
    [⟨"system", MsgContent.str "You are a forensic plumbing AI. Output JSON only."⟩,
     ⟨"user", MsgContent.parts [ContentPart.text (questionPrompt cd)]⟩]
  | some f =>
    [⟨"system", MsgContent.str "You are a forensic plumbing AI. Output JSON only."⟩,
     ⟨"user", MsgContent.parts [ContentPart.text (questionPrompt cd),
        ContentPart.image_url ("data:image/jpeg;base64," ++ b64img f)]⟩]

/-- The interview-transcript loop (app.py lines 81-83):
`for q, a in zip(questions, answers)` — `zip` stops at the shorter list. -/
def transcript : List String → List String → String
  | q :: qs, a :: rest => "Q: " ++ q ++ "\nA: " ++ a ++ "\n" ++ transcript qs rest
  | _, _ => ""

/-- The stage-2 prompt f-string (app.py lines 85-96), inlining the transcript. -/
def diagnosisPrompt (cd : CaseData) (questions answers : List String) : String :=
  "\n    Analyze this Plumbing Case:\n    " ++
  "- Property: " ++ renderOptInt cd.year ++ " Built, " ++ renderOptStr cd.plan ++
  "\n    " ++ "- Initial Issue: " ++ renderOptStr cd.desc ++
  "\n    - Interview Results:\n    " ++
  transcript questions answers ++
  "\n    \n    Provide a Root Cause Analysis.\n    1. Most Likely Cause.\n    2. Recommended Action.\n    3. Estimated Complexity (1-10).\n    "

/-- The stage-2 message list (app.py lines 98-104): the user content is a
plain string, replaced by a text part plus an `image_url` part when an image
is present. -/
def diagnosisMessages (cd : CaseData) (questions answers : List String)
    (image_file : Option UploadedFile) : List Message :=
  match image_file with
  | none =>
    [⟨"system", MsgContent.str "You are a Senior Plumber."⟩,
     ⟨"user", MsgContent.str (diagnosisPrompt cd questions answers)⟩]
  | some f =>
    [⟨"system", MsgContent.str "You are a Senior Plumber."⟩,
     ⟨"user", MsgContent.parts [ContentPart.text (diagnosisPrompt cd questions answers),
        ContentPart.image_url ("data:image/jpeg;base64," ++ b64img f)]⟩]

/-- Whether a content part is an image block. -/
def partIsImage : ContentPart → Bool
  | ContentPart.image_url _ => true
  | ContentPart.text _ => false

/-- Whether any message of a list carries an image content block. -/
def hasImagePart (msgs : List Message) : Bool :=
  msgs.any fun m =>
    match m.content with
    | MsgContent.str _ => false
    | MsgContent.parts ps => ps.any partIsImage

/-! ### The two AI calls -/

/-- Outcome of `json.loads` on the stage-1 response content. Modelled from the
spec: the inbound response is "a JSON object with a `questions` key holding a
list of strings" (spec section 6); the JSON library is outside this repository.
`malformed` stands for a raised `JSONDecodeError` (or an `AttributeError` from
`.get` on a non-object value), `objNoQuestions` for a parsed object lacking
the `questions` key. -/
inductive JsonOutcome
  | malformed (err : String)
  | objNoQuestions
  | objQuestions (qs : List String)
  deriving Repr, DecidableEq

/-- Result of `generate_dynamic_questions`: the returned question list, and
the `st.error` text displayed on the way there, if any. -/
structure GenResult where
  questions : List String
  errorShown : Option String
  deriving Repr, DecidableEq

/-- The fixed default triple of the `except` branch (app.py line 71). -/
def fallbackQsExcept : List String :=
  ["Is the leak constant?", "Is the water warm?", "Is there a bathroom above?"]

/-- The fixed default triple used when `result.get("questions", ...)` misses
(app.py line 68). -/
def fallbackQsGet : List String :=
  ["Is the water constant or intermittent?", "Is it warm?", "Any recent repairs?"]

/-- `generate_dynamic_questions` (app.py lines 28-71). `svc` is the external
chat-completion endpoint: api key and message list in, transport failure or
response content out. The `try` block covers both the call and the JSON parse;
either failure lands in the `except` branch, which displays
`st.error(f"AI Error: ...")` and returns a fixed triple; a parsed object
without the `questions` key silently gets the `.get` default triple. -/
def generate_dynamic_questions (json_loads : String → JsonOutcome)
    (svc : String → List Message → Except String String)
    (api_key : String) (cd : CaseData) (image_file : Option UploadedFile) : GenResult :=
  match svc api_key (questionMessages cd image_file) with
  | Except.error e => ⟨fallbackQsExcept, some ("AI Error: " ++ e)⟩
  | Except.ok content =>
    match json_loads content with
    | JsonOutcome.malformed e => ⟨fallbackQsExcept, some ("AI Error: " ++ e)⟩
    | JsonOutcome.objNoQuestions => ⟨fallbackQsGet, none⟩
    | JsonOutcome.objQuestions qs => ⟨qs, none⟩

/-- `get_final_diagnosis` (app.py lines 73-107). There is no `try`/`except`
around this call: a transport failure comes back as `Except.error`, modelling
the uncaught exception. -/
def get_final_diagnosis (svc : String → List Message → Except String String)
    (api_key : String) (cd : CaseData) (questions answers : List String)
    (image_file : Option UploadedFile) : Except String String :=
  svc api_key (diagnosisMessages cd questions answers image_file)

/-! ### The wizard session -/

/-- `st.session_state`: wizard step, case dict, stage-1 question list, and the
cached final report (absent until step 4 first computes it). -/
structure SessionState where
  step : Nat
  data : CaseData
  ai_questions : List String
  final_report : Option String
  deriving Repr, DecidableEq

/-- The session right after initialisation (app.py lines 11-13); also the
state reached after the New Case button clears the session and reruns. -/
def initSession : SessionState := ⟨1, emptyCase, [], none⟩

/-- The New Case handler (app.py lines 248-250): `st.session_state.clear()`
plus rerun re-initialises the whole session. -/
def newCase (_s : SessionState) : SessionState := initSession

/-- The image chosen for an AI call (app.py lines 196 and 227): the stored
media only when its recorded kind is `"image"`, else `None`. -/
def selectImage (cd : CaseData) : Option UploadedFile :=
  if cd.mediaType = some "image" then cd.media else none

/-- Python `uploaded_file.type.split('/')[0]` — the MIME type's major kind
(`"image"` for `image/png`, `"video"` for `video/mp4`). -/
def fileKind (f : UploadedFile) : String :=
  String.mk (f.mime.data.takeWhile (fun c => c != '/'))

/-- Extensions accepted by the step-2 `st.file_uploader` (app.py line 173). -/
def allowedUploadTypes : List String := ["png", "jpg", "jpeg", "mp4", "mov"]

/-- Storing an upload into the case dict (app.py lines 176, 183-184). -/
def step2Upload (cd : CaseData) (f : UploadedFile) : CaseData :=
  { cd with media := some f, mediaType := some (fileKind f) }

/-- The step-2 "Analyze & Generate Questions" button handler (app.py lines
190-200): an empty api key (`not api_key`) shows an error and changes
nothing; otherwise the stage-1 call runs once and the wizard advances to
step 3 with the returned questions. Result: new session state, number of
outbound service invocations, displayed error text (if any). -/
def step2Analyze (json_loads : String → JsonOutcome)
    (svc : String → List Message → Except String String)
    (api_key : String) (s : SessionState) : SessionState × Nat × Option String :=
  if api_key = "" then
    (s, 0, some "Please enter API Key in sidebar.")
  else
    let r := generate_dynamic_questions json_loads svc api_key s.data (selectImage s.data)
    ({ s with ai_questions := r.questions, step := 3 }, 1, r.errorShown)

/-- The step-4 report block (app.py lines 225-242): when no report is cached,
the stage-2 call runs once — with no api-key check — and its result is cached
under `final_report`; a cached report is displayed with no call at all.
Result: number of outbound service invocations, then either the uncaught
exception or the new state paired with the displayed report text. -/
def renderStep4 (svc : String → List Message → Except String String)
    (api_key : String) (s : SessionState) : Nat × Except String (SessionState × String) :=
  match s.final_report with
  | some r => (0, Except.ok (s, r))
  | none =>
    match get_final_diagnosis svc api_key s.data s.ai_questions s.data.answers (selectImage s.data) with
    | Except.error e => (1, Except.error e)
    | Except.ok report => (1, Except.ok ({ s with final_report := some report }, report))

/-! ### Concrete sample endpoints and sessions, used by witnesses -/

/-- A constantly failing service endpoint (transport failure "timeout"). -/
def failingSvc : String → List Message → Except String String :=
  fun _ _ => Except.error "timeout"

/-- A service endpoint that always answers with the text "Report text". -/
def okSvc : String → List Message → Except String String :=
  fun _ _ => Except.ok "Report text"

/-- A sample session sitting at step 2 with an empty case. -/
def sampleStep2 : SessionState := ⟨2, emptyCase, [], none⟩

/-- A sample session sitting at step 4, one question asked, no cached report. -/
def sampleStep4 : SessionState := ⟨4, emptyCase, ["Q1"], none⟩

/-! ## Theorems -/

theorem charSextet_sextetChar (n : Nat) : charSextet (sextetChar (n % 64)) = n % 64 := by
  have h : ∀ m : Fin 64, charSextet (sextetChar m.val) = m.val := by decide
  exact h ⟨n % 64, Nat.mod_lt n (by decide)⟩

theorem sextetChar_ne_pad (n : Nat) : sextetChar (n % 64) ≠ '=' := by
  have h : ∀ m : Fin 64, sextetChar m.val ≠ '=' := by decide
  exact h ⟨n % 64, Nat.mod_lt n (by decide)⟩

/-- Base64 round trip on byte lists: decoding the encoding of any byte
sequence gives the sequence back. -/
theorem b64_roundtrip : ∀ bs : List Nat, (∀ b ∈ bs, b < 256) →
    b64DecodeChars (b64EncodeBytes bs) = bs
  | [], _ => rfl
  | [b1], h => by
    have hb1 : b1 < 256 := h b1 (by simp)
    simp only [b64EncodeBytes, b64DecodeChars, if_true, charSextet_sextetChar,
      List.cons.injEq, and_true]
    omega
  | [b1, b2], h => by
    have hb1 : b1 < 256 := h b1 (by simp)
    have hb2 : b2 < 256 := h b2 (by simp)
    simp only [b64EncodeBytes, b64DecodeChars, if_true, charSextet_sextetChar]
    rw [if_neg (sextetChar_ne_pad _)]
    simp only [List.cons.injEq, and_true]
    constructor <;> omega
  | b1 :: b2 :: b3 :: rest, h => by
    have hb1 : b1 < 256 := h b1 (by simp)
    have hb2 : b2 < 256 := h b2 (by simp)
    have hb3 : b3 < 256 := h b3 (by simp)
    have ih := b64_roundtrip rest (fun b hb => h b (by simp [hb]))
    simp only [b64EncodeBytes, b64DecodeChars]
    rw [if_neg (sextetChar_ne_pad _), if_neg (sextetChar_ne_pad _)]
    simp only [charSextet_sextetChar]
    rw [ih]
    simp only [List.cons.injEq, and_true]
    refine ⟨?_, ?_, ?_⟩ <;> omega

/-- A substring witness: if the haystack decomposes as `pre ++ needle ++ post`
then the Python `in` test succeeds. -/
theorem strContainsB_of_decomp (hay needle pre post : String)
    (h : hay.data = pre.data ++ needle.data ++ post.data) :
    strContainsB hay needle = true := by
  rw [strContainsB, decide_eq_true_eq]
  exact ⟨pre.data, post.data, h.symm⟩

/-- C6: the Evidence Encoder round-trip law. For an uploaded file (bytes below
256), decoding the produced base64 text reproduces the original bytes exactly,
and `encode_image` produces no output (`None`, "no image") exactly when the
input is absent. -/
theorem evidence_encoder_roundtrip (f : UploadedFile) (h : ∀ b ∈ f.bytes, b < 256) :
    (encode_image (some f)).map (fun s => b64DecodeChars s.data) = some f.bytes
    ∧ ∀ o : Option UploadedFile, (encode_image o = none ↔ o = none) := by
  constructor
  · show some (b64DecodeChars (b64EncodeBytes f.bytes)) = some f.bytes
    rw [b64_roundtrip f.bytes h]
  · intro o
    cases o <;> simp [encode_image]

/-- C6 witness: the round trip discharged at a concrete five-byte file. -/
theorem evidence_encoder_roundtrip_witness :
    (∀ b ∈ ([0, 1, 77, 255, 128] : List Nat), b < 256)
    ∧ ((encode_image (some ⟨"image/png", [0, 1, 77, 255, 128]⟩)).map
          (fun s => b64DecodeChars s.data) = some [0, 1, 77, 255, 128]
       ∧ ∀ o : Option UploadedFile, (encode_image o = none ↔ o = none)) :=
  ⟨by decide, evidence_encoder_roundtrip ⟨"image/png", [0, 1, 77, 255, 128]⟩ (by decide)⟩

/-- C7: an image content block appears in the stage-1 and in the stage-2
message list exactly when an image file was supplied; in particular, for a
case with no image neither composed message list ever carries one. -/
theorem no_image_no_image_block (cd : CaseData) (qs answers : List String)
    (img : Option UploadedFile) :
    hasImagePart (questionMessages cd img) = img.isSome
    ∧ hasImagePart (diagnosisMessages cd qs answers img) = img.isSome := by
  cases img <;>
    simp [hasImagePart, questionMessages, diagnosisMessages, partIsImage]

/-- C10: the uploader accepts mp4 and mov; an upload whose MIME kind is
"video" is stored as the case's media with kind "video", yet the image
selection for both AI calls yields `None` for it, so both calls are composed
without any image part — the video bytes are never base64-encoded into an
outbound message. -/
theorem video_media_never_sent (cd : CaseData) (f : UploadedFile)
    (qs answers : List String) (h : fileKind f = "video") :
    "mp4" ∈ allowedUploadTypes ∧ "mov" ∈ allowedUploadTypes
    ∧ (step2Upload cd f).mediaType = some "video"
    ∧ (step2Upload cd f).media = some f
    ∧ selectImage (step2Upload cd f) = none
    ∧ hasImagePart (questionMessages (step2Upload cd f) (selectImage (step2Upload cd f))) = false
    ∧ hasImagePart (diagnosisMessages (step2Upload cd f) qs answers (selectImage (step2Upload cd f))) = false := by
  have hty : (step2Upload cd f).mediaType = some "video" := by
    simp [step2Upload, h]
  have hsel : selectImage (step2Upload cd f) = none := by
    rw [selectImage, hty, if_neg (by decide)]
  refine ⟨by decide, by decide, hty, by simp [step2Upload], hsel, ?_, ?_⟩
  · rw [hsel]
    simp [hasImagePart, questionMessages, partIsImage]
  · rw [hsel]
    simp [hasImagePart, diagnosisMessages, partIsImage]

/-- C10 witness: discharged at a concrete two-byte mp4 upload. -/
theorem video_media_never_sent_witness :
    fileKind ⟨"video/mp4", [9, 9]⟩ = "video"
    ∧ ("mp4" ∈ allowedUploadTypes ∧ "mov" ∈ allowedUploadTypes
       ∧ (step2Upload emptyCase ⟨"video/mp4", [9, 9]⟩).mediaType = some "video"
       ∧ (step2Upload emptyCase ⟨"video/mp4", [9, 9]⟩).media = some ⟨"video/mp4", [9, 9]⟩
       ∧ selectImage (step2Upload emptyCase ⟨"video/mp4", [9, 9]⟩) = none
       ∧ hasImagePart (questionMessages (step2Upload emptyCase ⟨"video/mp4", [9, 9]⟩)
           (selectImage (step2Upload emptyCase ⟨"video/mp4", [9, 9]⟩))) = false
       ∧ hasImagePart (diagnosisMessages (step2Upload emptyCase ⟨"video/mp4", [9, 9]⟩) [] []
           (selectImage (step2Upload emptyCase ⟨"video/mp4", [9, 9]⟩))) = false) :=
  ⟨by decide, video_media_never_sent emptyCase ⟨"video/mp4", [9, 9]⟩ [] [] (by decide)⟩

/-- C4: Property Lookup walks the known keys in order, testing each
lowercased key for substring containment in the lowercased address, and the
first matching key's record wins (it equals `List.find?` over the table);
"123 Main St" yields the 1954 record whose plans contain
"Ranch Style (Crawlspace)"; an address matching no key yields the fixed
default (1990, ["Standard Layout"]) with the not-found flag. -/
theorem property_lookup_first_match :
    (∀ (db : List (String × PropertyRecord)) (address : String),
       fetchLoop db address
         = (db.find? fun kv => strContainsB (pyLower address) (pyLower kv.1)).map Prod.snd)
    ∧ step1Fetch "123 Main St" = (1954, ["Ranch Style (Crawlspace)", "Bungalow (Slab)"], true)
    ∧ "Ranch Style (Crawlspace)" ∈ (step1Fetch "123 Main St").2.1
    ∧ step1Fetch "999 Nowhere Ln" = (1990, ["Standard Layout"], false) := by
  refine ⟨?_, by decide, by decide, by decide⟩
  intro db address
  induction db with
  | nil => rfl
  | cons kv rest ih =>
    rw [fetchLoop]
    cases hm : strContainsB (pyLower address) (pyLower kv.1) with
    | true => simp [List.find?_cons, hm]
    | false => simp [List.find?_cons, hm, ih]

/-- C1 counterexample: at a concrete failing endpoint the stage-2 call
returns the raw `Except.error` — the failure propagates instead of being
converted to a displayable message — and a stage-1 failure still advances
the wizard from step 2 to step 3 instead of remaining in the same step. -/
theorem service_failure_claim_fails :
    get_final_diagnosis (fun _ _ => Except.error "Connection timed out") "sk-test"
        emptyCase ["Q1"] ["A1"] none = Except.error "Connection timed out"
    ∧ (step2Analyze (fun _ => JsonOutcome.objQuestions ["Q1"])
        (fun _ _ => Except.error "Connection timed out") "sk-test" sampleStep2).1.step = 3 := by
  exact ⟨rfl, rfl⟩

/-- C1 (amended): any failure of the stage-1 call is caught and converted to
the short displayable message "AI Error: ..." plus a fixed question triple —
never propagated — but the step-2 handler then advances to step 3 rather than
remaining in the same step; the stage-2 call has no handler, so its failure
propagates uncaught out of the step-4 render. -/
theorem service_failure_handling (json_loads : String → JsonOutcome)
    (svc : String → List Message → Except String String) (api_key : String)
    (s : SessionState) (e : String)
    (h1 : svc api_key (questionMessages s.data (selectImage s.data)) = Except.error e)
    (hkey : ¬ api_key = "")
    (h2 : svc api_key (diagnosisMessages s.data s.ai_questions s.data.answers (selectImage s.data))
            = Except.error e)
    (h3 : s.final_report = none) :
    generate_dynamic_questions json_loads svc api_key s.data (selectImage s.data)
        = ⟨fallbackQsExcept, some ("AI Error: " ++ e)⟩
    ∧ step2Analyze json_loads svc api_key s
        = ({ s with ai_questions := fallbackQsExcept, step := 3 }, 1, some ("AI Error: " ++ e))
    ∧ get_final_diagnosis svc api_key s.data s.ai_questions s.data.answers (selectImage s.data)
        = Except.error e
    ∧ renderStep4 svc api_key s = (1, Except.error e) := by
  have hg : generate_dynamic_questions json_loads svc api_key s.data (selectImage s.data)
      = ⟨fallbackQsExcept, some ("AI Error: " ++ e)⟩ := by
    rw [generate_dynamic_questions, h1]
  have hd : get_final_diagnosis svc api_key s.data s.ai_questions s.data.answers (selectImage s.data)
      = Except.error e := by
    rw [get_final_diagnosis, h2]
  refine ⟨hg, ?_, hd, ?_⟩
  · simp only [step2Analyze, if_neg hkey, hg]
  · simp only [renderStep4, h3, hd]

/-- C1 witness: the amended statement discharged at a concrete failing
endpoint and a concrete step-2 session. -/
theorem service_failure_handling_witness :
    (failingSvc "sk-test" (questionMessages sampleStep2.data (selectImage sampleStep2.data))
        = Except.error "timeout"
     ∧ ¬ "sk-test" = ""
     ∧ failingSvc "sk-test" (diagnosisMessages sampleStep2.data sampleStep2.ai_questions
          sampleStep2.data.answers (selectImage sampleStep2.data)) = Except.error "timeout"
     ∧ sampleStep2.final_report = none)
    ∧ (generate_dynamic_questions (fun _ => JsonOutcome.objNoQuestions) failingSvc "sk-test"
          sampleStep2.data (selectImage sampleStep2.data)
        = ⟨fallbackQsExcept, some ("AI Error: " ++ "timeout")⟩
       ∧ step2Analyze (fun _ => JsonOutcome.objNoQuestions) failingSvc "sk-test" sampleStep2
        = ({ sampleStep2 with ai_questions := fallbackQsExcept, step := 3 }, 1,
           some ("AI Error: " ++ "timeout"))
       ∧ get_final_diagnosis failingSvc "sk-test" sampleStep2.data sampleStep2.ai_questions
           sampleStep2.data.answers (selectImage sampleStep2.data) = Except.error "timeout"
       ∧ renderStep4 failingSvc "sk-test" sampleStep2 = (1, Except.error "timeout")) :=
  ⟨⟨rfl, by decide, rfl, rfl⟩,
   service_failure_handling (fun _ => JsonOutcome.objNoQuestions) failingSvc "sk-test"
     sampleStep2 "timeout" rfl (by decide) rfl rfl⟩

/-- C2 counterexample: with the credential absent (empty key) and no cached
report, the step-4 render still issues one outbound call — there is no local
check and no configuration-error message. -/
theorem missing_credential_step4_calls :
    renderStep4 okSvc "" sampleStep4
      = (1, Except.ok ({ sampleStep4 with final_report := some "Report text" }, "Report text"))
    ∧ (renderStep4 okSvc "" sampleStep4).1 ≠ 0 := by
  exact ⟨rfl, by decide⟩

/-- C2 (amended): the step-2 handler detects an absent (empty) credential
locally, displays the configuration-error message, leaves the session
unchanged and issues zero outbound calls; the step-4 block performs no such
check — with no cached report it issues its outbound call regardless of the
credential. -/
theorem missing_credential_handling (json_loads : String → JsonOutcome)
    (svc : String → List Message → Except String String) (s : SessionState)
    (h : s.final_report = none) :
    step2Analyze json_loads svc "" s = (s, 0, some "Please enter API Key in sidebar.")
    ∧ (renderStep4 svc "" s).1 = 1 := by
  constructor
  · rw [step2Analyze, if_pos rfl]
  · simp only [renderStep4, h]
    cases hcall : get_final_diagnosis svc "" s.data s.ai_questions s.data.answers (selectImage s.data) <;>
      rfl

/-- C2 witness: the amended statement discharged at a concrete step-4
session with no cached report. -/
theorem missing_credential_handling_witness :
    sampleStep4.final_report = none
    ∧ (step2Analyze (fun _ => JsonOutcome.objNoQuestions) okSvc "" sampleStep4
        = (sampleStep4, 0, some "Please enter API Key in sidebar.")
       ∧ (renderStep4 okSvc "" sampleStep4).1 = 1) :=
  ⟨rfl, missing_credential_handling (fun _ => JsonOutcome.objNoQuestions) okSvc sampleStep4 rfl⟩

/-- C3 counterexample: at a concrete malformed stage-1 response the
substitution is not silent — an "AI Error" message is surfaced to the user —
and the two fixed default triples of the two failure paths differ. -/
theorem stage1_malformed_not_silent :
    (generate_dynamic_questions
        (fun _ => JsonOutcome.malformed "Expecting value: line 1 column 1 (char 0)")
        okSvc "sk-test" emptyCase none).errorShown
      = some "AI Error: Expecting value: line 1 column 1 (char 0)"
    ∧ (generate_dynamic_questions
        (fun _ => JsonOutcome.malformed "Expecting value: line 1 column 1 (char 0)")
        okSvc "sk-test" emptyCase none).errorShown ≠ none
    ∧ fallbackQsExcept ≠ fallbackQsGet := by
  exact ⟨rfl, by decide, by decide⟩

/-- C3 (amended): a malformed stage-1 response yields the fixed except-branch
triple (three questions, no exception) but displays an "AI Error" message —
not silent; a response that parses but lacks the `questions` key silently
yields a different fixed triple (also three questions); neither path returns
zero questions or raises. -/
theorem stage1_fallback_triples (jlM jlN : String → JsonOutcome)
    (svc : String → List Message → Except String String) (api_key : String)
    (cd : CaseData) (img : Option UploadedFile) (content e : String)
    (hsvc : svc api_key (questionMessages cd img) = Except.ok content)
    (hmal : jlM content = JsonOutcome.malformed e)
    (hnq : jlN content = JsonOutcome.objNoQuestions) :
    generate_dynamic_questions jlM svc api_key cd img
        = ⟨fallbackQsExcept, some ("AI Error: " ++ e)⟩
    ∧ generate_dynamic_questions jlN svc api_key cd img = ⟨fallbackQsGet, none⟩
    ∧ fallbackQsExcept.length = 3 ∧ fallbackQsGet.length = 3 := by
  refine ⟨?_, ?_, rfl, rfl⟩
  · rw [generate_dynamic_questions, hsvc]
    simp only [hmal]
  · rw [generate_dynamic_questions, hsvc]
    simp only [hnq]

/-- C3 witness: the amended statement discharged at a concrete response
content with concrete parse outcomes. -/
theorem stage1_fallback_triples_witness :
    (okSvc "sk-test" (questionMessages emptyCase none) = Except.ok "Report text"
     ∧ (fun _ => JsonOutcome.malformed "Expecting value") "Report text"
         = JsonOutcome.malformed "Expecting value"
     ∧ (fun _ => JsonOutcome.objNoQuestions) "Report text" = JsonOutcome.objNoQuestions)
    ∧ (generate_dynamic_questions (fun _ => JsonOutcome.malformed "Expecting value")
          okSvc "sk-test" emptyCase none
        = ⟨fallbackQsExcept, some ("AI Error: " ++ "Expecting value")⟩
       ∧ generate_dynamic_questions (fun _ => JsonOutcome.objNoQuestions)
          okSvc "sk-test" emptyCase none = ⟨fallbackQsGet, none⟩
       ∧ fallbackQsExcept.length = 3 ∧ fallbackQsGet.length = 3) :=
  ⟨⟨rfl, rfl, rfl⟩,
   stage1_fallback_triples (fun _ => JsonOutcome.malformed "Expecting value")
     (fun _ => JsonOutcome.objNoQuestions) okSvc "sk-test" emptyCase none
     "Report text" "Expecting value" rfl rfl rfl⟩

/-- C9: a step-4 render that produces a report leaves it cached under
`final_report`; every further render of step 4 issues zero outbound calls,
leaves the session unchanged and displays the identical cached text; the New
Case action resets the session, clearing the cached report and returning to
step 1. -/
theorem step4_report_cached (svc : String → List Message → Except String String)
    (api_key : String) (s s1 : SessionState) (c : Nat) (rep : String)
    (h : renderStep4 svc api_key s = (c, Except.ok (s1, rep))) :
    s1.final_report = some rep
    ∧ renderStep4 svc api_key s1 = (0, Except.ok (s1, rep))
    ∧ (newCase s1).final_report = none ∧ (newCase s1).step = 1 := by
  have hfr : s1.final_report = some rep := by
    simp only [renderStep4] at h
    cases hs : s.final_report with
    | some r =>
      rw [hs] at h
      simp only [Prod.mk.injEq, Except.ok.injEq] at h
      obtain ⟨-, h1, h2⟩ := h
      rw [← h1, hs, h2]
    | none =>
      rw [hs] at h
      cases hcall : get_final_diagnosis svc api_key s.data s.ai_questions s.data.answers
          (selectImage s.data) with
      | error e =>
        rw [hcall] at h
        simp at h
      | ok report =>
        rw [hcall] at h
        simp only [Prod.mk.injEq, Except.ok.injEq] at h
        obtain ⟨-, h1, h2⟩ := h
        rw [← h1, h2]
  refine ⟨hfr, ?_, rfl, rfl⟩
  simp only [renderStep4, hfr]

/-- C9 witness: discharged at a concrete step-4 session whose first render
computes and caches "Report text". -/
theorem step4_report_cached_witness :
    renderStep4 okSvc "sk-test" sampleStep4
      = (1, Except.ok ({ sampleStep4 with final_report := some "Report text" }, "Report text"))
    ∧ ({ sampleStep4 with final_report := some "Report text" } : SessionState).final_report
        = some "Report text"
    ∧ renderStep4 okSvc "sk-test" { sampleStep4 with final_report := some "Report text" }
        = (0, Except.ok ({ sampleStep4 with final_report := some "Report text" }, "Report text"))
    ∧ (newCase { sampleStep4 with final_report := some "Report text" }).final_report = none
    ∧ (newCase { sampleStep4 with final_report := some "Report text" }).step = 1 :=
  ⟨rfl, (step4_report_cached okSvc "sk-test" sampleStep4
     { sampleStep4 with final_report := some "Report text" } 1 "Report text" rfl).1,
   (step4_report_cached okSvc "sk-test" sampleStep4
     { sampleStep4 with final_report := some "Report text" } 1 "Report text" rfl).2⟩

/-- C5 counterexample: with two questions and one answer the transcript keeps
only the paired first question — the unanswered second question is omitted
entirely and no "Unknown" sentinel is inserted. -/
theorem transcript_truncation :
    transcript ["Is the leak constant?", "Is there a bathroom above?"] ["Yes"]
      = "Q: Is the leak constant?\nA: Yes\n"
    ∧ strContainsB (transcript ["Is the leak constant?", "Is there a bathroom above?"] ["Yes"])
        "Unknown" = false
    ∧ strContainsB (transcript ["Is the leak constant?", "Is there a bathroom above?"] ["Yes"])
        "bathroom" = false := by
  exact ⟨rfl, by decide, by decide⟩

/-- C5 (amended): the stage-2 prompt inlines the transcript verbatim as
Q:/A: pairs over the positionally zipped question/answer pairs, in original
question order; when the two lists have different lengths, `zip` truncates to
the shorter one — the unpaired tail is omitted, with no "Unknown" gaps. -/
theorem transcript_in_prompt (cd : CaseData) (questions answers : List String) :
    transcript questions answers
      = ((questions.zip answers).map
           (fun p => "Q: " ++ p.1 ++ "\nA: " ++ p.2 ++ "\n")).foldr (· ++ ·) ""
    ∧ strContainsB (diagnosisPrompt cd questions answers) (transcript questions answers) = true := by
  constructor
  · induction questions generalizing answers with
    | nil => rfl
    | cons q qs ih =>
      cases answers with
      | nil => rfl
      | cons a rest =>
        simp only [transcript, List.zip_cons_cons, List.map_cons, List.foldr_cons, ih]
  · refine strContainsB_of_decomp _ _
      ("\n    Analyze this Plumbing Case:\n    " ++ "- Property: " ++ renderOptInt cd.year ++
        " Built, " ++ renderOptStr cd.plan ++ "\n    " ++ "- Initial Issue: " ++
        renderOptStr cd.desc ++ "\n    - Interview Results:\n    ")
      "\n    \n    Provide a Root Cause Analysis.\n    1. Most Likely Cause.\n    2. Recommended Action.\n    3. Estimated Complexity (1-10).\n    " ?_
    simp only [diagnosisPrompt, String.data_append, List.append_assoc]

/-- C8 counterexample: with every field absent the concrete composed prompts
render the missing fields as "None" and contain no occurrence of "Unknown" —
the Case Store contract's "Unknown" rendering never appears in a composed
prompt. -/
theorem missing_fields_not_unknown :
    strContainsB (questionPrompt emptyCase) "Unknown" = false
    ∧ strContainsB (diagnosisPrompt emptyCase [] []) "Unknown" = false
    ∧ strContainsB (questionPrompt emptyCase) ("House Built: " ++ "None") = true := by
  exact ⟨by decide, by decide, by decide⟩

/-- C8 (amended): reading an absent case field during prompt composition
never fails (`dict.get` yields `None`), and the absent field renders in both
composed prompts as the literal string "None" right after its label — not as
"Unknown". -/
theorem missing_fields_render_none (cd : CaseData) (questions answers : List String) :
    (cd.year = none →
       strContainsB (questionPrompt cd) ("House Built: " ++ "None") = true
       ∧ strContainsB (diagnosisPrompt cd questions answers) ("- Property: " ++ "None") = true)
    ∧ (cd.plan = none →
       strContainsB (questionPrompt cd) ("Floor Plan: " ++ "None") = true
       ∧ strContainsB (diagnosisPrompt cd questions answers) (" Built, " ++ "None") = true)
    ∧ (cd.desc = none →
       strContainsB (questionPrompt cd) ("Description: " ++ "None") = true
       ∧ strContainsB (diagnosisPrompt cd questions answers) ("- Initial Issue: " ++ "None") = true) := by
  refine ⟨fun hy => ⟨?_, ?_⟩, fun hp => ⟨?_, ?_⟩, fun hd => ⟨?_, ?_⟩⟩
  · refine strContainsB_of_decomp _ _
      "\n    You are a Senior Plumber investigating a leak.\n    "
      ("\n    " ++ "Floor Plan: " ++ renderOptStr cd.plan ++ "\n    " ++ "Description: " ++
        renderOptStr cd.desc ++
        "\n    \n    Task: Analyze the image (if provided) and the house stats. \n    Generate 3 specific, simple questions to ask the homeowner to narrow down the root cause.\n    Return ONLY a raw JSON list of strings. Example: [\"Does it hurt when you press?\", \"Is the water hot?\", \"Smell?\"]\n    ") ?_
    simp only [questionPrompt, hy, renderOptInt, String.data_append, List.append_assoc]
  · refine strContainsB_of_decomp _ _
      "\n    Analyze this Plumbing Case:\n    "
      (" Built, " ++ renderOptStr cd.plan ++ "\n    " ++ "- Initial Issue: " ++
        renderOptStr cd.desc ++ "\n    - Interview Results:\n    " ++
        transcript questions answers ++
        "\n    \n    Provide a Root Cause Analysis.\n    1. Most Likely Cause.\n    2. Recommended Action.\n    3. Estimated Complexity (1-10).\n    ") ?_
    simp only [diagnosisPrompt, hy, renderOptInt, String.data_append, List.append_assoc]
  · refine strContainsB_of_decomp _ _
      ("\n    You are a Senior Plumber investigating a leak.\n    " ++ "House Built: " ++
        renderOptInt cd.year ++ "\n    ")
      ("\n    " ++ "Description: " ++ renderOptStr cd.desc ++
        "\n    \n    Task: Analyze the image (if provided) and the house stats. \n    Generate 3 specific, simple questions to ask the homeowner to narrow down the root cause.\n    Return ONLY a raw JSON list of strings. Example: [\"Does it hurt when you press?\", \"Is the water hot?\", \"Smell?\"]\n    ") ?_
    simp only [questionPrompt, hp, renderOptStr, String.data_append, List.append_assoc]
  · refine strContainsB_of_decomp _ _
      ("\n    Analyze this Plumbing Case:\n    " ++ "- Property: " ++ renderOptInt cd.year)
      ("\n    " ++ "- Initial Issue: " ++ renderOptStr cd.desc ++
        "\n    - Interview Results:\n    " ++ transcript questions answers ++
        "\n    \n    Provide a Root Cause Analysis.\n    1. Most Likely Cause.\n    2. Recommended Action.\n    3. Estimated Complexity (1-10).\n    ") ?_
    simp only [diagnosisPrompt, hp, renderOptStr, String.data_append, List.append_assoc]
  · refine strContainsB_of_decomp _ _
      ("\n    You are a Senior Plumber investigating a leak.\n    " ++ "House Built: " ++
        renderOptInt cd.year ++ "\n    " ++ "Floor Plan: " ++ renderOptStr cd.plan ++ "\n    ")
      "\n    \n    Task: Analyze the image (if provided) and the house stats. \n    Generate 3 specific, simple questions to ask the homeowner to narrow down the root cause.\n    Return ONLY a raw JSON list of strings. Example: [\"Does it hurt when you press?\", \"Is the water hot?\", \"Smell?\"]\n    " ?_
    simp only [questionPrompt, hd, renderOptStr, String.data_append, List.append_assoc]
  · refine strContainsB_of_decomp _ _
      ("\n    Analyze this Plumbing Case:\n    " ++ "- Property: " ++ renderOptInt cd.year ++
        " Built, " ++ renderOptStr cd.plan ++ "\n    ")
      ("\n    - Interview Results:\n    " ++ transcript questions answers ++
        "\n    \n    Provide a Root Cause Analysis.\n    1. Most Likely Cause.\n    2. Recommended Action.\n    3. Estimated Complexity (1-10).\n    ") ?_
    simp only [diagnosisPrompt, hd, renderOptStr, String.data_append, List.append_assoc]

/-- C8 witness: the amended statement discharged at the empty case, whose
fields are all absent. -/
theorem missing_fields_render_none_witness :
    (emptyCase.year = none ∧ emptyCase.plan = none ∧ emptyCase.desc = none)
    ∧ (strContainsB (questionPrompt emptyCase) ("House Built: " ++ "None") = true
       ∧ strContainsB (diagnosisPrompt emptyCase [] []) ("- Property: " ++ "None") = true
       ∧ strContainsB (questionPrompt emptyCase) ("Floor Plan: " ++ "None") = true
       ∧ strContainsB (diagnosisPrompt emptyCase [] []) (" Built, " ++ "None") = true
       ∧ strContainsB (questionPrompt emptyCase) ("Description: " ++ "None") = true
       ∧ strContainsB (diagnosisPrompt emptyCase [] []) ("- Initial Issue: " ++ "None") = true) :=
  ⟨⟨rfl, rfl, rfl⟩,
   ⟨((missing_fields_render_none emptyCase [] []).1 rfl).1,
    ((missing_fields_render_none emptyCase [] []).1 rfl).2,
    ((missing_fields_render_none emptyCase [] []).2.1 rfl).1,
    ((missing_fields_render_none emptyCase [] []).2.1 rfl).2,
    ((missing_fields_render_none emptyCase [] []).2.2 rfl).1,
    ((missing_fields_render_none emptyCase [] []).2.2 rfl).2⟩⟩

end Snap2Fix
